import Mathlib

/-!
Shallow embedding of `dcimg.py` (class `DCIMGFile`), a memory-mapped reader for
Hamamatsu DCIMG microscopy files.

Modelling conventions:
* The memory-mapped file is a `List Nat` of byte values; Python slicing
  `mm[a:b]` (which clamps at the end of the range) is `pySlice`.
* `int.from_bytes(_, 'little')` is `fromBytesLE`.
* numpy structured-array parsing of the two fixed headers is translated
  field-by-field at the offsets given by `FILE_HDR_DTYPE` / `SESS_HDR_DTYPE`
  (skip fields are not retained, matching the fact that the code never reads
  them).  numpy compares an `S8` field with trailing NUL bytes stripped
  (`stripTrailingNulls`).
* Fallible code returns `Except PyErr _`, where `PyErr` mirrors the Python
  exception classes actually raised (`RuntimeError`, `ValueError`,
  `TypeError`, `KeyError`, `IndexError`).
* numpy float64 timestamp arithmetic is modelled exactly over `ℚ`
  (`math.pow(10, -(floor(log10 f) + 1))` becomes division by
  `10 ^ (Nat.log 10 f + 1)`; for `f ≥ 1`, `Nat.log 10 f = floor (log10 f)`).
* An `np.ndarray` view is a shape together with a total indexing function;
  elements are read little-endian from the backing buffer (the code runs on
  little-endian hosts and the format is little-endian).
-/

set_option maxRecDepth 100000

/-- Python exceptions raised by the translated code. -/
inductive PyErr where
  | runtimeError : String → PyErr
  | valueError : String → PyErr
  | typeError : String → PyErr
  | keyError : String → PyErr
  | indexError : String → PyErr
deriving DecidableEq

/-- Python slice `l[a:b]` on bytes (clamps, never fails). -/
def pySlice (l : List Nat) (a b : Nat) : List Nat :=
  (l.drop a).take (b - a)

/-- `int.from_bytes(bs, 'little')`. -/
def fromBytesLE : List Nat → Nat
  | [] => 0
  | b :: rest => b + 256 * fromBytesLE rest

/-- Read a little-endian `<u4` field at byte offset `i`. -/
def u32at (b : List Nat) (i : Nat) : Nat := fromBytesLE (pySlice b i (i + 4))

/-- Read a little-endian `<u8` field at byte offset `i`. -/
def u64at (b : List Nat) (i : Nat) : Nat := fromBytesLE (pySlice b i (i + 8))

/-- numpy `S8` scalar comparison strips trailing NUL bytes before comparing. -/
def stripTrailingNulls (l : List Nat) : List Nat :=
  ((l.reverse).dropWhile (fun b => b == 0)).reverse

/-- The bytes of the ASCII literal `b"DCIMG"`. -/
def dcimgMagic : List Nat := [68, 67, 73, 77, 71]

/-- An `mmap.mmap` object: backing bytes plus a closed flag.  Slicing a closed
mapping raises `ValueError('mmap closed or invalid')`. -/
structure MMap where
  bytes : List Nat
  closed : Bool
deriving DecidableEq

def MMap.slice (m : MMap) (a b : Nat) : Except PyErr (List Nat) :=
  if m.closed then Except.error (PyErr.valueError "mmap closed or invalid")
  else Except.ok (pySlice m.bytes a b)

/-- The fields of `FILE_HDR_DTYPE` that the code reads (offsets: `file_format`
at 0 (S8), `format_version` at 8, `nsess` at 32, `nfrms` at 36, `header_size`
at 40, `file_size` at 48, `file_size2` at 64; total record size 72). -/
structure FileHeader where
  file_format : List Nat
  format_version : Nat
  nsess : Nat
  nfrms : Nat
  header_size : Nat
  file_size : Nat
  file_size2 : Nat
deriving DecidableEq

def parseFileHeader (b : List Nat) : FileHeader :=
  { file_format := pySlice b 0 8
    format_version := u32at b 8
    nsess := u32at b 32
    nfrms := u32at b 36
    header_size := u32at b 40
    file_size := u64at b 48
    file_size2 := u64at b 64 }

/-- The fields of `SESS_HDR_DTYPE` (offsets within the 80-byte record:
`session_size` at 0 (u8), `nfrms` at 32, `byte_depth` at 36, `xsize` at 44,
`bytes_per_row` at 48, `ysize` at 52, `bytes_per_img` at 56, `header_size`
at 68, `session_data_size` at 72). -/
structure SessHeader where
  session_size : Nat
  nfrms : Nat
  byte_depth : Nat
  xsize : Nat
  bytes_per_row : Nat
  ysize : Nat
  bytes_per_img : Nat
  header_size : Nat
  session_data_size : Nat
deriving DecidableEq

def parseSessHeader (b : List Nat) : SessHeader :=
  { session_size := u64at b 0
    nfrms := u32at b 32
    byte_depth := u32at b 36
    xsize := u32at b 44
    bytes_per_row := u32at b 48
    ysize := u32at b 52
    bytes_per_img := u32at b 56
    header_size := u32at b 68
    session_data_size := u64at b 72 }

/-- The two pixel element types the reader supports (`np.uint8` / `np.uint16`). -/
inductive DType where
  | uint8 : DType
  | uint16 : DType
deriving DecidableEq

def DType.itemsize : DType → Nat
  | DType.uint8 => 1
  | DType.uint16 => 2

/-- An open `DCIMGFile` handle: the (open) memory map plus the parsed headers
and the derived pixel dtype, exactly the state `_parse_header` populates. -/
structure DCIMGFile where
  mm : List Nat
  file_header : FileHeader
  sess_header : SessHeader
  dtype : DType
deriving DecidableEq

def DCIMGFile.nfrms (h : DCIMGFile) : Nat := h.sess_header.nfrms

def DCIMGFile.byte_depth (h : DCIMGFile) : Nat := h.sess_header.byte_depth

def DCIMGFile.xsize (h : DCIMGFile) : Nat := h.sess_header.xsize

def DCIMGFile.ysize (h : DCIMGFile) : Nat := h.sess_header.ysize

def DCIMGFile.bytes_per_row (h : DCIMGFile) : Nat := h.sess_header.bytes_per_row

def DCIMGFile.bytes_per_img (h : DCIMGFile) : Nat := h.sess_header.bytes_per_img

/-- `shape` property: `(self.nfrms, self.xsize, self.ysize)`. -/
def DCIMGFile.shape (h : DCIMGFile) : Nat × Nat × Nat := (h.nfrms, h.xsize, h.ysize)

def DCIMGFile.header_size (h : DCIMGFile) : Nat := h.file_header.header_size

def DCIMGFile.session_footer_offset (h : DCIMGFile) : Nat :=
  h.header_size + h.sess_header.session_data_size

def DCIMGFile.timestamp_offset (h : DCIMGFile) : Nat :=
  h.session_footer_offset + 272 + 4 * h.nfrms

/-- `vars(self)` for a `DCIMGFile` instance: the attributes set in
`__init__` / `open` (properties are not instance attributes). -/
def varsSelf : List String :=
  ["mm", "file_header", "sess_header", "file_size", "dtype", "file_name"]

/-- `str.format(**kwargs)` looks replacement fields up left to right and
raises `KeyError(field)` at the first field missing from the mapping. -/
def pyFormatKeys : List String → List String → Except PyErr Unit
  | [], _ => Except.ok ()
  | f :: rest, avail =>
      if avail.contains f then pyFormatKeys rest avail
      else Except.error (PyErr.keyError f)

/-- Tail of `_parse_header` after the dtype has been selected: the two
row/image size identity checks, then the fully populated handle.  On a
mismatch the code builds its message with `.format(**vars(self))`, whose
replacement fields (`bytes_per_row`, `byte_depth`, `y_size`, ...) are not
instance attributes, so `str.format` raises before `RuntimeError` is ever
constructed. -/
def checkSizes (mmBytes : List Nat) (fh : FileHeader) (sh : SessHeader)
    (dt : DType) : Except PyErr DCIMGFile :=
  if sh.bytes_per_row ≠ sh.byte_depth * sh.ysize then
    match pyFormatKeys ["bytes_per_row", "byte_depth", "y_size"] varsSelf with
    | Except.error e => Except.error e
    | Except.ok _ => Except.error (PyErr.runtimeError "bytes_per_row mismatch")
  else if sh.bytes_per_img ≠ sh.bytes_per_row * sh.ysize then
    match pyFormatKeys ["bytes_per_img", "y_size", "bytes_per_row"] varsSelf with
    | Except.error e => Except.error e
    | Except.ok _ => Except.error (PyErr.runtimeError "bytes_per_img mismatch")
  else
    Except.ok { mm := mmBytes, file_header := fh, sess_header := sh, dtype := dt }

/-- The part of `_parse_header` from `np.fromstring` of the session-header
slice onwards: the 80-byte length requirement of `np.fromstring`, then the
`byte_depth` dispatch (`if == 1` / `elif == 2` / `else raise
RuntimeError('Invalid byte-depth: ...')`), then the size checks. -/
def parseSessStage (mmBytes : List Nat) (fh : FileHeader) (sessBytes : List Nat) :
    Except PyErr DCIMGFile :=
  if sessBytes.length ≠ 80 then
    Except.error (PyErr.valueError "string size must be a multiple of element size")
  else if (parseSessHeader sessBytes).byte_depth = 1 then
    checkSizes mmBytes fh (parseSessHeader sessBytes) DType.uint8
  else if (parseSessHeader sessBytes).byte_depth = 2 then
    checkSizes mmBytes fh (parseSessHeader sessBytes) DType.uint16
  else
    Except.error
      (PyErr.runtimeError ("Invalid byte-depth: " ++ toString (parseSessHeader sessBytes).byte_depth))

/-- `DCIMGFile._parse_header`.  `np.fromstring` raises `ValueError` when the
slice is shorter than the 72/80-byte record; the magic check compares the
`S8` field with trailing NULs stripped and raises
`RuntimeError('Invalid DCIMG file')` on mismatch; the rest is
`parseSessStage`.  (The Python locals `self.file_header` / `self.sess_header`
are written out as `parseFileHeader hdrBytes` / `parseSessHeader sessBytes`.) -/
def _parse_header (mm : MMap) : Except PyErr DCIMGFile :=
  match mm.slice 0 72 with
  | Except.error e => Except.error e
  | Except.ok hdrBytes =>
    if hdrBytes.length ≠ 72 then
      Except.error (PyErr.valueError "string size must be a multiple of element size")
    else if stripTrailingNulls (parseFileHeader hdrBytes).file_format ≠ dcimgMagic then
      Except.error (PyErr.runtimeError "Invalid DCIMG file")
    else
      match mm.slice (parseFileHeader hdrBytes).header_size
          ((parseFileHeader hdrBytes).header_size + 80) with
      | Except.error e => Except.error e
      | Except.ok sessBytes => parseSessStage mm.bytes (parseFileHeader hdrBytes) sessBytes

/-- `DCIMGFile.open` (named `openBytes` because `open` is a Lean keyword):
maps the file, and if the first five bytes differ from `b"DCIMG"` it closes
the mapping (the code does not raise here) before calling `_parse_header`,
whose reads then fail on the closed mapping. -/
def openBytes (fileBytes : List Nat) : Except PyErr DCIMGFile :=
  let mm : MMap :=
    { bytes := fileBytes
      closed := decide (pySlice fileBytes 0 5 ≠ dcimgMagic) }
  _parse_header mm

/-- Exact value of one decoded timestamp record (`whole`, `fraction` are the
two consecutive little-endian u32 reads). -/
def decodeTimestamp (whole fraction : Nat) : ℚ :=
  if fraction = 0 then (whole : ℚ)
  else (whole : ℚ) + (fraction : ℚ) / (10 : ℚ) ^ (Nat.log 10 fraction + 1)

/-- The loop body of the `timestamps` property: per frame, read `whole` then
`fraction` (4 bytes each, little-endian) at the running cursor `index`,
decode, and advance the cursor by 8. -/
def timestampsLoop (mm : List Nat) : Nat → Nat → List ℚ
  | _, 0 => []
  | index, n + 1 =>
      let whole := fromBytesLE (pySlice mm index (index + 4))
      let fraction := fromBytesLE (pySlice mm (index + 4) (index + 8))
      decodeTimestamp whole fraction :: timestampsLoop mm (index + 8) n

/-- `DCIMGFile.timestamps`: `nfrms` records read starting at
`timestamp_offset`.  Python byte slicing clamps at the end of the mapping and
`int.from_bytes(b'')` is 0, so this property is total: it never raises. -/
def DCIMGFile.timestamps (h : DCIMGFile) : List ℚ :=
  timestampsLoop h.mm h.timestamp_offset h.nfrms

/-- An `np.ndarray` view of rank 3 (the rank `layer` constructs): a shape and
a total indexing function.  `np.squeeze` only rewrites the shape, never the
stored elements, so squeezed results keep the 3-index accessor. -/
structure Arr3 where
  shape : List Nat
  data : Nat → Nat → Nat → Nat

/-- Element read of the native dtype from the backing buffer (numpy
`np.ndarray(shape, dtype, buffer, offset)` element access, little-endian). -/
def readElem (mm : List Nat) (itemsize off : Nat) : Nat :=
  fromBytesLE (pySlice mm off (off + itemsize))

/-- `a[i, 0, 0:4] = px`: overwrite the first four elements of row 0 of frame
`i` of the view. -/
def setCorners (a : Arr3) (i : Nat) (px : Nat → Nat) : Arr3 :=
  { a with data := fun i2 y x => if i2 = i ∧ y = 0 ∧ x < 4 then px x else a.data i2 y x }

/-- The footer loop of `layer`: for each frame `i` of the layer,
`px = np.ndarray((1, 1, 4), dtype, mm, index)` — numpy first requires
`offset ≤ len(buffer)` (else `ValueError('offset must be non-negative and no
greater than buffer length')`) and then that the 4 requested elements fit in
the rest of the buffer (else `TypeError('buffer is too small for requested
array')`) — then `a[i, 0, 0:4] = px` (which raises `IndexError` when
`ysize = 0` and a broadcast `ValueError` when `xsize < 4`), then
`index += 4 * byte_depth`. -/
def footerLoop (mm : List Nat) (dt : DType) (bd ys xs fidx : Nat) :
    List Nat → Arr3 → Except PyErr Arr3
  | [], a => Except.ok a
  | i :: rest, a =>
      if mm.length < fidx + 4 * bd * i then
        Except.error
          (PyErr.valueError "offset must be non-negative and no greater than buffer length")
      else if mm.length < fidx + 4 * bd * i + 4 * dt.itemsize then
        Except.error (PyErr.typeError "buffer is too small for requested array")
      else if ys = 0 then
        Except.error (PyErr.indexError "index 0 is out of bounds for axis 1 with size 0")
      else if xs < 4 then
        Except.error (PyErr.valueError "could not broadcast input array from shape (1,1,4)")
      else
        footerLoop mm dt bd ys xs fidx rest
          (setCorners a i (fun x => readElem mm dt.itemsize (fidx + 4 * bd * i + dt.itemsize * x)))

/-- `a.astype(d)`: converted copy; converting to a narrower unsigned type
wraps modulo `2 ^ (8 * itemsize)`. -/
def npAstype (a : Arr3) (d : DType) : Arr3 :=
  { a with data := fun i y x => a.data i y x % 256 ^ d.itemsize }

/-- `DCIMGFile.layer(index, frames_per_layer, dtype)`.  The main view is
`np.ndarray((frames_per_layer, ysize, xsize), self.dtype, self.mm, offset)`
with `offset = 232 + bytes_per_img * frames_per_layer * index`.  numpy first
requires `offset ≤ len(buffer)` (else `ValueError('offset must be
non-negative and no greater than buffer length')`) and then that the view
fits in the rest of the buffer (else `TypeError('buffer is too small for
requested array')`); then the footer loop restores the four corner pixels of
each frame; then `a.astype(dtype)` if a dtype was passed.  In Python both
`frames_per_layer` and `dtype` are optional (defaulting to 1 and `None`);
callers below always pass them explicitly. -/
def DCIMGFile.layer (h : DCIMGFile) (index frames_per_layer : Nat)
    (dtype : Option DType) : Except PyErr Arr3 :=
  if h.mm.length < 232 + h.bytes_per_img * frames_per_layer * index then
    Except.error
      (PyErr.valueError "offset must be non-negative and no greater than buffer length")
  else if h.mm.length < 232 + h.bytes_per_img * frames_per_layer * index
      + frames_per_layer * h.ysize * h.xsize * h.dtype.itemsize then
    Except.error (PyErr.typeError "buffer is too small for requested array")
  else
    match footerLoop h.mm h.dtype h.byte_depth h.ysize h.xsize
        (h.session_footer_offset + 272 + h.nfrms * (4 + 8)
          + 4 * h.byte_depth * index * frames_per_layer)
        (List.range frames_per_layer)
        { shape := [frames_per_layer, h.ysize, h.xsize]
          data := fun i y x =>
            readElem h.mm h.dtype.itemsize
              (232 + h.bytes_per_img * frames_per_layer * index
                + h.dtype.itemsize * ((i * h.ysize + y) * h.xsize + x)) } with
    | Except.error e => Except.error e
    | Except.ok a2 =>
        match dtype with
        | none => Except.ok a2
        | some d => Except.ok (npAstype a2 d)

/-- `np.squeeze(a, axis)`.  With `axis=None` every axis of extent 1 is removed
from the shape.  `frame` passes its `dtype` argument in the `axis` position;
a dtype is not an integer, so numpy raises `TypeError` (message abridged). -/
def npSqueeze (a : Arr3) (axis : Option DType) : Except PyErr Arr3 :=
  match axis with
  | none => Except.ok { a with shape := a.shape.filter (fun d => d ≠ 1) }
  | some _ =>
      Except.error (PyErr.typeError "only integer scalar arrays can be converted to a scalar index")

/-- `DCIMGFile.frame(index, dtype)`: `np.squeeze(self.layer(index), dtype)` —
`layer` is called with its defaults (`frames_per_layer=1`, `dtype=None`) and
the `dtype` argument lands in `np.squeeze`'s `axis` parameter. -/
def DCIMGFile.frame (h : DCIMGFile) (index : Nat) (dtype : Option DType) :
    Except PyErr Arr3 :=
  match h.layer index 1 none with
  | Except.error e => Except.error e
  | Except.ok a => npSqueeze a dtype

/-- Shape of a fallible array result, for stating facts about returned views. -/
def resultShape (e : Except PyErr Arr3) : Option (List Nat) :=
  match e with
  | Except.ok a => some a.shape
  | Except.error _ => none

/-- Little-endian encoding helpers for building synthetic files. -/
def u32le (n : Nat) : List Nat :=
  [n % 256, n / 256 % 256, n / 256 ^ 2 % 256, n / 256 ^ 3 % 256]

def u64le (n : Nat) : List Nat := u32le (n % 2 ^ 32) ++ u32le (n / 2 ^ 32)

/-- `b"DCIMG"` padded with NULs to the 8-byte `S8` field. -/
def dcimgMagicPadded : List Nat := [68, 67, 73, 77, 71, 0, 0, 0]

/-- A 72-byte file header: version 1, 1 session, 1 frame, session header at
offset 72, file size 520 (twice). -/
def goodFileHeader : List Nat :=
  dcimgMagicPadded ++ u32le 1 ++ List.replicate 20 0 ++ u32le 1 ++ u32le 1
    ++ u32le 72 ++ u32le 0 ++ u64le 520 ++ List.replicate 8 0 ++ u64le 520

/-- An 80-byte session header with 1 frame and the given geometry fields. -/
def mkSessHeader (bd xs bpr ys bpi sds : Nat) : List Nat :=
  u64le 448 ++ List.replicate 24 0 ++ u32le 1 ++ u32le bd ++ u32le 0
    ++ u32le xs ++ u32le bpr ++ u32le ys ++ u32le bpi
    ++ List.replicate 8 0 ++ u32le 232 ++ u64le sds

/-- 16 distinguishable pixel bytes for the main pixel block at offset 232. -/
def pixelBlock : List Nat :=
  [11, 12, 13, 14, 15, 16, 17, 18, 19, 20, 21, 22, 23, 24, 25, 26]

/-- A valid 520-byte synthetic file: `byte_depth=1`, `xsize=4`, `ysize=4`,
`bytes_per_row=4`, `bytes_per_img=16`, `session_data_size=160` (so the
session footer is at 232, the timestamp table at 508 holding `whole=10`,
`fraction=5`, and the corner-pixel table at 516 holding 101..104). -/
def goodBytes : List Nat :=
  goodFileHeader ++ mkSessHeader 1 4 4 4 16 160 ++ List.replicate 80 0
    ++ pixelBlock ++ List.replicate 260 0 ++ u32le 10 ++ u32le 5
    ++ [101, 102, 103, 104]

/-- The handle `openBytes goodBytes` produces. -/
def goodHandle : DCIMGFile :=
  { mm := goodBytes
    file_header := parseFileHeader (pySlice goodBytes 0 72)
    sess_header := parseSessHeader (pySlice goodBytes 72 152)
    dtype := DType.uint8 }

example : openBytes goodBytes = Except.ok goodHandle := by rfl
example : goodHandle.timestamp_offset = 508 := by rfl
example : goodHandle.timestamps = [decodeTimestamp 10 5] := by rfl

/-- `goodBytes` with the first magic byte altered (`b"XCIMG..."`). -/
def c3Bytes : List Nat := List.set goodBytes 0 88

/-- `goodBytes` with the first magic padding byte altered to 1. -/
def c9Bytes : List Nat := List.set goodBytes 5 1

/-- Headers only (152 bytes), with `session_data_size = 10000`: parsing
succeeds but the whole footer (timestamp table included) lies far beyond the
end of the mapping. -/
def c4Bytes : List Nat := goodFileHeader ++ mkSessHeader 1 4 4 4 16 10000

/-- The handle `openBytes c4Bytes` produces. -/
def c4Handle : DCIMGFile :=
  { mm := c4Bytes
    file_header := parseFileHeader (pySlice c4Bytes 0 72)
    sess_header := parseSessHeader (pySlice c4Bytes 72 152)
    dtype := DType.uint8 }

/-- Like `c4Bytes` but padded to 520 bytes: the pixel block is inside the
mapping while the footer corner-pixel reads are beyond it. -/
def c4bBytes : List Nat :=
  goodFileHeader ++ mkSessHeader 1 4 4 4 16 10000 ++ List.replicate 368 0

/-- The handle `openBytes c4bBytes` produces. -/
def c4bHandle : DCIMGFile :=
  { mm := c4bBytes
    file_header := parseFileHeader (pySlice c4bBytes 0 72)
    sess_header := parseSessHeader (pySlice c4bBytes 72 152)
    dtype := DType.uint8 }

/-- `goodBytes` truncated to 518 bytes: the pixel block is inside the mapping
and the footer corner-pixel offset (516) is still a valid offset, but the 4
corner bytes no longer fit (518 < 516 + 4). -/
def c4cBytes : List Nat := List.take 518 goodBytes

/-- The handle `openBytes c4cBytes` produces. -/
def c4cHandle : DCIMGFile :=
  { mm := c4cBytes
    file_header := parseFileHeader (pySlice c4cBytes 0 72)
    sess_header := parseSessHeader (pySlice c4cBytes 72 152)
    dtype := DType.uint8 }

/-- Headers only, with `bytes_per_row = 5 ≠ byte_depth * ysize = 4`. -/
def c5Bytes : List Nat := goodFileHeader ++ mkSessHeader 1 4 5 4 16 160

/-- Headers only, with `bytes_per_img = 17 ≠ bytes_per_row * ysize = 16`. -/
def c5bBytes : List Nat := goodFileHeader ++ mkSessHeader 1 4 4 4 17 160

/-- Headers only, with `byte_depth = 3`. -/
def c6Bytes : List Nat := goodFileHeader ++ mkSessHeader 3 4 12 4 48 160

/-- A valid 520-byte file like `goodBytes` but with `ysize = 1` (so
`bytes_per_row = 1`, `bytes_per_img = 1`): each frame is a single row. -/
def c7Bytes : List Nat :=
  goodFileHeader ++ mkSessHeader 1 4 1 1 1 160 ++ List.replicate 80 0
    ++ pixelBlock ++ List.replicate 260 0 ++ u32le 10 ++ u32le 5
    ++ [101, 102, 103, 104]

/-- The handle `openBytes c7Bytes` produces. -/
def c7Handle : DCIMGFile :=
  { mm := c7Bytes
    file_header := parseFileHeader (pySlice c7Bytes 0 72)
    sess_header := parseSessHeader (pySlice c7Bytes 72 152)
    dtype := DType.uint8 }

example : openBytes c3Bytes = Except.error (PyErr.valueError "mmap closed or invalid") := by rfl
example : openBytes c9Bytes = Except.error (PyErr.runtimeError "Invalid DCIMG file") := by rfl
example : openBytes c4Bytes = Except.ok c4Handle := by rfl
example : openBytes c4bBytes = Except.ok c4bHandle := by rfl
example : c4Handle.timestamps = [0] := by rfl
example : openBytes c5Bytes = Except.error (PyErr.keyError "bytes_per_row") := by rfl
example : openBytes c5bBytes = Except.error (PyErr.keyError "bytes_per_img") := by rfl
example : openBytes c6Bytes = Except.error (PyErr.runtimeError ("Invalid byte-depth: " ++ toString (3 : Nat))) := by rfl
example : openBytes c7Bytes = Except.ok c7Handle := by rfl
example : resultShape (c7Handle.frame 0 none) = some [4] := by rfl
example : resultShape (c7Handle.frame 0 (some DType.uint16)) = none := by rfl
example : resultShape (goodHandle.frame 0 none) = some [4, 4] := by rfl
example : resultShape (goodHandle.layer 0 1 none) = some [1, 4, 4] := by rfl
example : resultShape (c4Handle.layer 1 1 none) = none := by rfl
example : resultShape (c4bHandle.layer 0 1 none) = none := by rfl

lemma pySlice_length (l : List Nat) (a b : Nat) :
    (pySlice l a b).length = min (b - a) (l.length - a) := by
  simp [pySlice]

lemma pySlice_zero (l : List Nat) (b : Nat) : pySlice l 0 b = l.take b := by
  simp [pySlice]

lemma pySlice_oob (l : List Nat) (a b : Nat) (h : l.length ≤ a) : pySlice l a b = [] := by
  simp [pySlice, List.drop_eq_nil_of_le h]

lemma timestampsLoop_length (mm : List Nat) :
    ∀ (n index : Nat), (timestampsLoop mm index n).length = n := by
  intro n
  induction n with
  | zero => intro index; rfl
  | succ k ih => intro index; simp [timestampsLoop, ih]

lemma timestampsLoop_getD (mm : List Nat) :
    ∀ (n index i : Nat), i < n →
      (timestampsLoop mm index n).getD i 0 =
        decodeTimestamp (fromBytesLE (pySlice mm (index + 8 * i) (index + 8 * i + 4)))
          (fromBytesLE (pySlice mm (index + 8 * i + 4) (index + 8 * i + 8))) := by
  intro n
  induction n with
  | zero => intro index i hi; omega
  | succ k ih =>
    intro index i hi
    cases i with
    | zero => simp [timestampsLoop]
    | succ j =>
      have e : index + 8 * (j + 1) = index + 8 + 8 * j := by ring
      rw [e]
      simp only [timestampsLoop, List.getD_cons_succ]
      exact ih (index + 8) j (by omega)

lemma timestampsLoop_oob (mm : List Nat) :
    ∀ (n index : Nat), mm.length ≤ index →
      timestampsLoop mm index n = List.replicate n 0 := by
  intro n
  induction n with
  | zero => intro index _; rfl
  | succ k ih =>
    intro index h
    rw [timestampsLoop, pySlice_oob mm index (index + 4) h,
      pySlice_oob mm (index + 4) (index + 8) (by omega),
      ih (index + 8) (by omega), List.replicate_succ]
    simp [fromBytesLE, decodeTimestamp]

lemma footerLoop_ok (mm : List Nat) (dt : DType) (bd ys xs fidx : Nat) :
    ∀ (l : List Nat) (a a2 : Arr3),
      footerLoop mm dt bd ys xs fidx l a = Except.ok a2 →
      a2.shape = a.shape ∧
      ∀ i2 y x, a2.data i2 y x =
        if i2 ∈ l ∧ y = 0 ∧ x < 4
        then readElem mm dt.itemsize (fidx + 4 * bd * i2 + dt.itemsize * x)
        else a.data i2 y x := by
  intro l
  induction l with
  | nil =>
    intro a a2 hok
    rw [footerLoop] at hok
    cases Except.ok.inj hok
    exact ⟨rfl, fun i2 y x => by simp⟩
  | cons i rest ih =>
    intro a a2 hok
    rw [footerLoop] at hok
    split at hok
    · exact Except.noConfusion hok
    split at hok
    · exact Except.noConfusion hok
    split at hok
    · exact Except.noConfusion hok
    split at hok
    · exact Except.noConfusion hok
    obtain ⟨hsh, hdata⟩ := ih _ a2 hok
    refine ⟨hsh, fun i2 y x => ?_⟩
    rw [hdata i2 y x]
    by_cases hmem : i2 ∈ rest ∧ y = 0 ∧ x < 4
    · rw [if_pos hmem, if_pos ⟨List.mem_cons_of_mem i hmem.1, hmem.2⟩]
    · rw [if_neg hmem]
      show (setCorners a i _).data i2 y x = _
      rw [setCorners]
      dsimp only
      by_cases hc : i2 = i ∧ y = 0 ∧ x < 4
      · rw [if_pos hc, if_pos ⟨by rw [hc.1]; exact List.mem_cons_self i rest, hc.2⟩, hc.1]
      · rw [if_neg hc, if_neg]
        rintro ⟨hmem2, hy, hx⟩
        rcases List.mem_cons.mp hmem2 with h1 | h2
        · exact hc ⟨h1, hy, hx⟩
        · exact hmem ⟨h2, hy, hx⟩

lemma footerLoop_isOk (mm : List Nat) (dt : DType) (bd ys xs fidx : Nat)
    (hy : 0 < ys) (hx : 4 ≤ xs) :
    ∀ (l : List Nat) (a : Arr3),
      (∀ i ∈ l, fidx + 4 * bd * i + 4 * dt.itemsize ≤ mm.length) →
      ∃ a2, footerLoop mm dt bd ys xs fidx l a = Except.ok a2 := by
  intro l
  induction l with
  | nil => intro a _; exact ⟨a, rfl⟩
  | cons i rest ih =>
    intro a hb
    rw [footerLoop]
    rw [if_neg (by have := hb i (List.mem_cons_self i rest); omega)]
    rw [if_neg (by have := hb i (List.mem_cons_self i rest); omega)]
    rw [if_neg (by omega)]
    rw [if_neg (by omega)]
    exact ih _ (fun j hj => hb j (List.mem_cons_of_mem i hj))

lemma pyFormatKeys_row :
    pyFormatKeys ["bytes_per_row", "byte_depth", "y_size"] varsSelf =
      Except.error (PyErr.keyError "bytes_per_row") := by rfl

lemma pyFormatKeys_img :
    pyFormatKeys ["bytes_per_img", "y_size", "bytes_per_row"] varsSelf =
      Except.error (PyErr.keyError "bytes_per_img") := by rfl

lemma checkSizes_cases (mmBytes : List Nat) (fh : FileHeader) (sh : SessHeader) (dt : DType) :
    (sh.bytes_per_row ≠ sh.byte_depth * sh.ysize ∧
       checkSizes mmBytes fh sh dt = Except.error (PyErr.keyError "bytes_per_row")) ∨
    (sh.bytes_per_row = sh.byte_depth * sh.ysize ∧
       sh.bytes_per_img ≠ sh.bytes_per_row * sh.ysize ∧
       checkSizes mmBytes fh sh dt = Except.error (PyErr.keyError "bytes_per_img")) ∨
    (sh.bytes_per_row = sh.byte_depth * sh.ysize ∧
       sh.bytes_per_img = sh.bytes_per_row * sh.ysize ∧
       checkSizes mmBytes fh sh dt =
         Except.ok { mm := mmBytes, file_header := fh, sess_header := sh, dtype := dt }) := by
  by_cases h1 : sh.bytes_per_row = sh.byte_depth * sh.ysize
  · by_cases h2 : sh.bytes_per_img = sh.bytes_per_row * sh.ysize
    · refine Or.inr (Or.inr ⟨h1, h2, ?_⟩)
      rw [checkSizes, if_neg (by simp [h1]), if_neg (by simp [h2])]
    · refine Or.inr (Or.inl ⟨h1, h2, ?_⟩)
      rw [checkSizes, if_neg (by simp [h1]), if_pos h2, pyFormatKeys_img]
  · refine Or.inl ⟨h1, ?_⟩
    rw [checkSizes, if_pos h1, pyFormatKeys_row]

lemma bytedepth_msg_ne (s : String) :
    PyErr.runtimeError ("Invalid byte-depth: " ++ s) ≠ PyErr.runtimeError "Invalid DCIMG file" := by
  intro hcontra
  have hmsg := PyErr.runtimeError.inj hcontra
  have hlen := congrArg String.length hmsg
  rw [String.length_append] at hlen
  have h20 : "Invalid byte-depth: ".length = 20 := by rfl
  have h18 : "Invalid DCIMG file".length = 18 := by rfl
  omega

lemma strip_padded (p1 p2 p3 : Nat) (hne : ¬(p1 = 0 ∧ p2 = 0 ∧ p3 = 0)) :
    stripTrailingNulls [68, 67, 73, 77, 71, p1, p2, p3] ≠ dcimgMagic := by
  by_cases h3 : p3 = 0
  · by_cases h2 : p2 = 0
    · by_cases h1 : p1 = 0
      · exact absurd ⟨h1, h2, h3⟩ hne
      · subst h3; subst h2
        simp [stripTrailingNulls, dcimgMagic, List.dropWhile,
          show (p1 == 0) = false from by simpa using h1]
    · subst h3
      simp [stripTrailingNulls, dcimgMagic, List.dropWhile,
        show (p2 == 0) = false from by simpa using h2]
  · simp [stripTrailingNulls, dcimgMagic, List.dropWhile,
      show (p3 == 0) = false from by simpa using h3]

lemma pySlice_of_magic8 {mm : List Nat} (h8 : pySlice mm 0 8 = dcimgMagicPadded) :
    pySlice mm 0 5 = dcimgMagic := by
  have ht : pySlice mm 0 5 = (pySlice mm 0 8).take 5 := by
    simp [pySlice, List.take_take]
  rw [ht, h8]
  rfl

lemma header_slice_file_format (mm : List Nat) :
    (parseFileHeader (pySlice mm 0 72)).file_format = pySlice mm 0 8 := by
  simp [parseFileHeader, pySlice, List.take_take]

lemma openBytes_magic_stage (mm : List Nat) (h72 : 72 ≤ mm.length)
    (h5 : pySlice mm 0 5 = dcimgMagic) :
    openBytes mm =
      if stripTrailingNulls (pySlice mm 0 8) ≠ dcimgMagic then
        Except.error (PyErr.runtimeError "Invalid DCIMG file")
      else
        parseSessStage mm (parseFileHeader (pySlice mm 0 72))
          (pySlice mm (parseFileHeader (pySlice mm 0 72)).header_size
            ((parseFileHeader (pySlice mm 0 72)).header_size + 80)) := by
  have hcl : decide (pySlice mm 0 5 ≠ dcimgMagic) = false := by simp [h5]
  have hopen : openBytes mm =
      _parse_header { bytes := mm, closed := decide (pySlice mm 0 5 ≠ dcimgMagic) } := rfl
  rw [hcl] at hopen
  rw [hopen, _parse_header]
  rw [show MMap.slice { bytes := mm, closed := false } 0 72 = Except.ok (pySlice mm 0 72)
    from by simp [MMap.slice]]
  dsimp only
  have hlen : (pySlice mm 0 72).length = 72 := by rw [pySlice_length]; omega
  rw [if_neg (by simp [hlen])]
  rw [header_slice_file_format]
  by_cases hmag : stripTrailingNulls (pySlice mm 0 8) ≠ dcimgMagic
  · rw [if_pos hmag, if_pos hmag]
  · rw [if_neg hmag, if_neg hmag]
    rw [show MMap.slice { bytes := mm, closed := false }
        (parseFileHeader (pySlice mm 0 72)).header_size
        ((parseFileHeader (pySlice mm 0 72)).header_size + 80)
      = Except.ok (pySlice mm (parseFileHeader (pySlice mm 0 72)).header_size
          ((parseFileHeader (pySlice mm 0 72)).header_size + 80))
      from by simp [MMap.slice]]

lemma openBytes_magic_ok_stage (mm : List Nat) (h72 : 72 ≤ mm.length)
    (h8 : pySlice mm 0 8 = dcimgMagicPadded) :
    openBytes mm = parseSessStage mm (parseFileHeader (pySlice mm 0 72))
      (pySlice mm (parseFileHeader (pySlice mm 0 72)).header_size
        ((parseFileHeader (pySlice mm 0 72)).header_size + 80)) := by
  rw [openBytes_magic_stage mm h72 (pySlice_of_magic8 h8)]
  rw [if_neg (by rw [h8]; decide)]

lemma openBytes_magic_bad_stage (mm : List Nat) (h72 : 72 ≤ mm.length)
    (h5 : pySlice mm 0 5 = dcimgMagic)
    (hbad : stripTrailingNulls (pySlice mm 0 8) ≠ dcimgMagic) :
    openBytes mm = Except.error (PyErr.runtimeError "Invalid DCIMG file") := by
  rw [openBytes_magic_stage mm h72 h5, if_pos hbad]

lemma parseSessStage_ne_magic (mmB : List Nat) (fh : FileHeader) (sb : List Nat) :
    parseSessStage mmB fh sb ≠ Except.error (PyErr.runtimeError "Invalid DCIMG file") := by
  rw [parseSessStage]
  split
  · simp
  split
  · rcases checkSizes_cases mmB fh (parseSessHeader sb) DType.uint8 with
      ⟨_, he⟩ | ⟨_, _, he⟩ | ⟨_, _, he⟩ <;> rw [he] <;> simp
  split
  · rcases checkSizes_cases mmB fh (parseSessHeader sb) DType.uint16 with
      ⟨_, he⟩ | ⟨_, _, he⟩ | ⟨_, _, he⟩ <;> rw [he] <;> simp
  · intro hcontra
    exact bytedepth_msg_ne _ (Except.error.inj hcontra)

lemma openBytes_ok_dtype {mm : List Nat} {h : DCIMGFile} (hok : openBytes mm = Except.ok h) :
    (h.byte_depth = 1 ∧ h.dtype = DType.uint8) ∨
    (h.byte_depth = 2 ∧ h.dtype = DType.uint16) := by
  by_cases h5 : pySlice mm 0 5 = dcimgMagic
  · have hcl : decide (pySlice mm 0 5 ≠ dcimgMagic) = false := by simp [h5]
    have hopen : openBytes mm =
        _parse_header { bytes := mm, closed := decide (pySlice mm 0 5 ≠ dcimgMagic) } := rfl
    rw [hcl] at hopen
    rw [hopen, _parse_header] at hok
    rw [show MMap.slice { bytes := mm, closed := false } 0 72 = Except.ok (pySlice mm 0 72)
      from by simp [MMap.slice]] at hok
    dsimp only at hok
    by_cases hlen : (pySlice mm 0 72).length = 72
    · rw [if_neg (by simp [hlen])] at hok
      by_cases hmag : stripTrailingNulls (parseFileHeader (pySlice mm 0 72)).file_format ≠ dcimgMagic
      · rw [if_pos hmag] at hok
        exact Except.noConfusion hok
      · rw [if_neg hmag] at hok
        rw [show MMap.slice { bytes := mm, closed := false }
            (parseFileHeader (pySlice mm 0 72)).header_size
            ((parseFileHeader (pySlice mm 0 72)).header_size + 80)
          = Except.ok (pySlice mm (parseFileHeader (pySlice mm 0 72)).header_size
              ((parseFileHeader (pySlice mm 0 72)).header_size + 80))
          from by simp [MMap.slice]] at hok
        dsimp only at hok
        rw [parseSessStage] at hok
        split at hok
        · exact Except.noConfusion hok
        split at hok
        · rcases checkSizes_cases mm (parseFileHeader (pySlice mm 0 72))
            (parseSessHeader (pySlice mm (parseFileHeader (pySlice mm 0 72)).header_size
              ((parseFileHeader (pySlice mm 0 72)).header_size + 80))) DType.uint8 with
            ⟨_, he⟩ | ⟨_, _, he⟩ | ⟨_, _, he⟩
          · rw [he] at hok; exact Except.noConfusion hok
          · rw [he] at hok; exact Except.noConfusion hok
          · rw [he] at hok
            cases Except.ok.inj hok
            left
            exact ⟨by assumption, rfl⟩
        split at hok
        · rcases checkSizes_cases mm (parseFileHeader (pySlice mm 0 72))
            (parseSessHeader (pySlice mm (parseFileHeader (pySlice mm 0 72)).header_size
              ((parseFileHeader (pySlice mm 0 72)).header_size + 80))) DType.uint16 with
            ⟨_, he⟩ | ⟨_, _, he⟩ | ⟨_, _, he⟩
          · rw [he] at hok; exact Except.noConfusion hok
          · rw [he] at hok; exact Except.noConfusion hok
          · rw [he] at hok
            cases Except.ok.inj hok
            right
            exact ⟨by assumption, rfl⟩
        · exact Except.noConfusion hok
    · rw [if_pos hlen] at hok
      exact Except.noConfusion hok
  · have hcl : decide (pySlice mm 0 5 ≠ dcimgMagic) = true := by simp [h5]
    have hopen : openBytes mm =
        _parse_header { bytes := mm, closed := decide (pySlice mm 0 5 ≠ dcimgMagic) } := rfl
    rw [hcl] at hopen
    rw [hopen, _parse_header] at hok
    rw [show MMap.slice { bytes := mm, closed := true } 0 72
        = Except.error (PyErr.valueError "mmap closed or invalid")
      from by simp [MMap.slice]] at hok
    exact Except.noConfusion hok

lemma layer_ok_shape {h : DCIMGFile} {index fpl : Nat} {dtype : Option DType} {a : Arr3}
    (hok : h.layer index fpl dtype = Except.ok a) :
    a.shape = [fpl, h.ysize, h.xsize] := by
  rw [DCIMGFile.layer] at hok
  split at hok
  · exact Except.noConfusion hok
  · split at hok
    · exact Except.noConfusion hok
    · split at hok
      · exact Except.noConfusion hok
      · next a2 heq =>
          have hsh := (footerLoop_ok _ _ _ _ _ _ _ _ _ heq).1
          split at hok
          · cases Except.ok.inj hok; exact hsh
          · cases Except.ok.inj hok; exact hsh

lemma resultShape_some {e : Except PyErr Arr3} {s : List Nat} (hs : resultShape e = some s) :
    ∃ a, e = Except.ok a ∧ a.shape = s := by
  cases e with
  | ok a => exact ⟨a, rfl, Option.some.inj hs⟩
  | error er => simp [resultShape] at hs

/-- C2: a timestamp record decodes to `whole` exactly when `fraction = 0`, and
otherwise to `whole + fraction / 10 ^ (digits fraction)` where
`digits fraction = Nat.log 10 fraction + 1` is the number of base-10 digits of
`fraction` (characterised by `10 ^ (d - 1) ≤ fraction < 10 ^ d`); in
particular `(10, 5) ↦ 10.5`, `(10, 500) ↦ 10.5` and `(7, 0) ↦ 7` exactly. -/
theorem C2_timestamp_decoding :
    (∀ whole fraction : Nat, fraction = 0 →
        decodeTimestamp whole fraction = (whole : ℚ)) ∧
    (∀ whole fraction : Nat, fraction ≠ 0 →
        decodeTimestamp whole fraction
            = (whole : ℚ) + (fraction : ℚ) / (10 : ℚ) ^ (Nat.log 10 fraction + 1) ∧
          10 ^ Nat.log 10 fraction ≤ fraction ∧
          fraction < 10 ^ (Nat.log 10 fraction + 1)) ∧
    decodeTimestamp 10 5 = 21 / 2 ∧ decodeTimestamp 10 500 = 21 / 2 ∧
    decodeTimestamp 7 0 = 7 := by
  refine ⟨?_, ?_, ?_, ?_, ?_⟩
  · intro w f hf
    simp [decodeTimestamp, hf]
  · intro w f hf
    exact ⟨by simp [decodeTimestamp, hf], Nat.pow_log_le_self 10 hf,
      Nat.lt_pow_succ_log_self (by norm_num) f⟩
  · have hl : Nat.log 10 5 = 0 :=
      Nat.log_eq_of_pow_le_of_lt_pow (by norm_num) (by norm_num)
    simp only [decodeTimestamp, hl]
    norm_num
  · have hl : Nat.log 10 500 = 2 :=
      Nat.log_eq_of_pow_le_of_lt_pow (by norm_num) (by norm_num)
    simp only [decodeTimestamp, hl]
    norm_num
  · simp [decodeTimestamp]

/-- C2 witness: the theorem applied at the concrete records `(7, 0)` and
`(10, 5)`. -/
theorem C2_timestamp_decoding_witness :
    decodeTimestamp 7 0 = ((7 : Nat) : ℚ) ∧
    decodeTimestamp 10 5 = ((10 : Nat) : ℚ) + ((5 : Nat) : ℚ) / (10 : ℚ) ^ (Nat.log 10 5 + 1) :=
  ⟨C2_timestamp_decoding.1 7 0 rfl,
   (C2_timestamp_decoding.2.1 10 5 (by decide)).1⟩

/-- C8: `timestamps` returns exactly `nfrms` values, one per frame in frame
order, the `i`-th obtained by decoding the 8 bytes (`whole` then `fraction`,
4 bytes each) at `timestamp_offset + 8 * i`, where `timestamp_offset =
session_footer_offset + 272 + 4 * nfrms`; the table therefore spans
`8 * nfrms` bytes. -/
theorem C8_timestamps_table (h : DCIMGFile) :
    h.timestamp_offset = h.session_footer_offset + 272 + 4 * h.nfrms ∧
    h.timestamps.length = h.nfrms ∧
    ∀ i, i < h.nfrms →
      h.timestamps.getD i 0 =
        decodeTimestamp
          (fromBytesLE (pySlice h.mm (h.timestamp_offset + 8 * i) (h.timestamp_offset + 8 * i + 4)))
          (fromBytesLE (pySlice h.mm (h.timestamp_offset + 8 * i + 4) (h.timestamp_offset + 8 * i + 8))) :=
  ⟨rfl, timestampsLoop_length h.mm h.nfrms h.timestamp_offset,
   fun i hi => timestampsLoop_getD h.mm h.nfrms h.timestamp_offset i hi⟩

/-- C8 witness: the theorem applied to the synthetic one-frame file, whose
single record holds `whole = 10`, `fraction = 5`. -/
theorem C8_timestamps_table_witness :
    goodHandle.timestamps.length = goodHandle.nfrms ∧
    goodHandle.timestamps.getD 0 0 = decodeTimestamp 10 5 :=
  ⟨(C8_timestamps_table goodHandle).2.1,
   (C8_timestamps_table goodHandle).2.2 0 (by decide)⟩

/-- C4 counterexample: on `c4Bytes` — a file that opens successfully but whose
whole footer lies beyond the end of the 152-byte mapping — the timestamp-table
read does NOT fail with a bounds error: slicing clamps, the empty slices
decode as 0, and `timestamps` silently returns `[0]`.  This refutes the claim
that every out-of-range request fails with a fatal `BoundsError`. -/
theorem C4_timestamps_no_bounds_check_counterexample :
    openBytes c4Bytes = Except.ok c4Handle ∧
    c4Bytes.length ≤ c4Handle.timestamp_offset ∧
    c4Handle.timestamps = [0] := by
  refine ⟨by rfl, by decide, by rfl⟩

/-- C4 (amended): out-of-range `layer` requests always fail fatally, with the
numpy error of the region they fall in — `ValueError('offset must be
non-negative and no greater than buffer length')` when the computed
pixel-block or footer offset itself exceeds the mapped range, and
`TypeError('buffer is too small for requested array')` when the offset is
within the range but the requested data does not fit behind it — and never
wrap, clamp, or decode truncated bytes; but `timestamps` performs no bounds
check at all: every read at or beyond the end of the mapping silently
decodes as 0. -/
theorem C4_bounds_amended :
    (∀ (h : DCIMGFile) (index fpl : Nat) (dtype : Option DType),
        h.mm.length < 232 + h.bytes_per_img * fpl * index →
        h.layer index fpl dtype = Except.error
          (PyErr.valueError "offset must be non-negative and no greater than buffer length")) ∧
    (∀ (h : DCIMGFile) (index fpl : Nat) (dtype : Option DType),
        232 + h.bytes_per_img * fpl * index ≤ h.mm.length →
        h.mm.length < 232 + h.bytes_per_img * fpl * index
            + fpl * h.ysize * h.xsize * h.dtype.itemsize →
        h.layer index fpl dtype =
          Except.error (PyErr.typeError "buffer is too small for requested array")) ∧
    (∀ (h : DCIMGFile) (index fpl : Nat) (dtype : Option DType),
        0 < fpl →
        232 + h.bytes_per_img * fpl * index
            + fpl * h.ysize * h.xsize * h.dtype.itemsize ≤ h.mm.length →
        h.mm.length < h.session_footer_offset + 272 + h.nfrms * (4 + 8)
            + 4 * h.byte_depth * index * fpl →
        h.layer index fpl dtype = Except.error
          (PyErr.valueError "offset must be non-negative and no greater than buffer length")) ∧
    (∀ (h : DCIMGFile) (index fpl : Nat) (dtype : Option DType),
        0 < fpl →
        232 + h.bytes_per_img * fpl * index
            + fpl * h.ysize * h.xsize * h.dtype.itemsize ≤ h.mm.length →
        h.session_footer_offset + 272 + h.nfrms * (4 + 8)
            + 4 * h.byte_depth * index * fpl ≤ h.mm.length →
        h.mm.length < h.session_footer_offset + 272 + h.nfrms * (4 + 8)
            + 4 * h.byte_depth * index * fpl + 4 * h.dtype.itemsize →
        h.layer index fpl dtype =
          Except.error (PyErr.typeError "buffer is too small for requested array")) ∧
    (∀ h : DCIMGFile, h.mm.length ≤ h.timestamp_offset →
        h.timestamps = List.replicate h.nfrms 0) := by
  refine ⟨?_, ?_, ?_, ?_, ?_⟩
  · intro h index fpl dtype hoff
    rw [DCIMGFile.layer, if_pos hoff]
  · intro h index fpl dtype hoff hlen
    rw [DCIMGFile.layer, if_neg (by omega), if_pos hlen]
  · intro h index fpl dtype hfpl hpix hfoff
    obtain ⟨k, rfl⟩ : ∃ k, fpl = k + 1 := ⟨fpl - 1, by omega⟩
    rw [DCIMGFile.layer, if_neg (by omega), if_neg (by omega)]
    rw [List.range_succ_eq_map, footerLoop, if_pos (by omega)]
  · intro h index fpl dtype hfpl hpix hfoff hfoot
    obtain ⟨k, rfl⟩ : ∃ k, fpl = k + 1 := ⟨fpl - 1, by omega⟩
    rw [DCIMGFile.layer, if_neg (by omega), if_neg (by omega)]
    rw [List.range_succ_eq_map, footerLoop, if_neg (by omega), if_pos (by omega)]
  · intro h hlen
    exact timestampsLoop_oob h.mm h.nfrms h.timestamp_offset hlen

/-- C4 witness: the amended theorem applied to concrete files hitting each
region: a pixel-block offset past the end of `c4Bytes` (ValueError); a
pixel-block offset exactly at the end of `c4bBytes` with a view that does not
fit (TypeError); a footer offset past the end of `c4bBytes` (ValueError); a
valid footer offset in the truncated `c4cBytes` whose 4 corner bytes do not
fit (TypeError); and the clamped timestamp table of `c4Bytes`. -/
theorem C4_bounds_amended_witness :
    c4Handle.layer 1 1 none = Except.error
      (PyErr.valueError "offset must be non-negative and no greater than buffer length") ∧
    c4bHandle.layer 18 1 none =
      Except.error (PyErr.typeError "buffer is too small for requested array") ∧
    c4bHandle.layer 0 1 none = Except.error
      (PyErr.valueError "offset must be non-negative and no greater than buffer length") ∧
    c4cHandle.layer 0 1 none =
      Except.error (PyErr.typeError "buffer is too small for requested array") ∧
    c4Handle.timestamps = List.replicate c4Handle.nfrms 0 :=
  ⟨C4_bounds_amended.1 c4Handle 1 1 none (by decide),
   C4_bounds_amended.2.1 c4bHandle 18 1 none (by decide) (by decide),
   C4_bounds_amended.2.2.1 c4bHandle 0 1 none (by decide) (by decide) (by decide),
   C4_bounds_amended.2.2.2.1 c4cHandle 0 1 none (by decide) (by decide) (by decide) (by decide),
   C4_bounds_amended.2.2.2.2 c4Handle (by decide)⟩

/-- C3: on a file whose first magic byte is altered (`b"XCIMG..."`), `open`
closes the mapping WITHOUT raising, then calls `_parse_header`, whose first
read of the closed mapping fails with `ValueError('mmap closed or invalid')` —
not the claimed `FormatError` (`RuntimeError('Invalid DCIMG file')`). -/
theorem C3_magic_mismatch_closed_mmap :
    pySlice c3Bytes 0 5 = [88, 67, 73, 77, 71] ∧
    openBytes c3Bytes = Except.error (PyErr.valueError "mmap closed or invalid") ∧
    (∀ mm : List Nat, pySlice mm 0 5 ≠ dcimgMagic →
      openBytes mm = Except.error (PyErr.valueError "mmap closed or invalid")) := by
  refine ⟨by rfl, by rfl, ?_⟩
  intro mm h5
  have hcl : decide (pySlice mm 0 5 ≠ dcimgMagic) = true := by simp [h5]
  have hopen : openBytes mm =
      _parse_header { bytes := mm, closed := decide (pySlice mm 0 5 ≠ dcimgMagic) } := rfl
  rw [hcl] at hopen
  rw [hopen, _parse_header]
  rw [show MMap.slice { bytes := mm, closed := true } 0 72
      = Except.error (PyErr.valueError "mmap closed or invalid")
    from by simp [MMap.slice]]

/-- C5: when a size identity fails, the error message is built with
`.format(**vars(self))`, but the replacement fields (`bytes_per_row`,
`byte_depth`, `y_size` / `bytes_per_img`) are properties, not instance
attributes, so opening dies with `KeyError('bytes_per_row')` (resp.
`KeyError('bytes_per_img')`) instead of the claimed `FormatError` carrying the
offending field with expected and actual values. -/
theorem C5_size_mismatch_keyerror :
    openBytes c5Bytes = Except.error (PyErr.keyError "bytes_per_row") ∧
    openBytes c5bBytes = Except.error (PyErr.keyError "bytes_per_img") := by
  exact ⟨by rfl, by rfl⟩

/-- C7: `frame` is `np.squeeze(self.layer(index), dtype)`, so `dtype` lands in
`np.squeeze`'s `axis` parameter.  On a valid file with `ysize = 1`,
`frame 0` returns shape `[4]` (ALL singleton axes squeezed) instead of the
claimed `(ysize, xsize) = [1, 4]`; and passing a dtype raises `TypeError`
instead of converting. -/
theorem C7_frame_squeeze_bug :
    openBytes c7Bytes = Except.ok c7Handle ∧
    c7Handle.ysize = 1 ∧ c7Handle.xsize = 4 ∧
    resultShape (c7Handle.frame 0 none) = some [4] ∧
    c7Handle.frame 0 (some DType.uint16) =
      Except.error (PyErr.typeError "only integer scalar arrays can be converted to a scalar index") := by
  exact ⟨by rfl, by rfl, by rfl, by rfl, by rfl⟩

/-- C9 counterexample: a file identical to the valid `goodBytes` except that
the first magic padding byte is 1 (magic field `b"DCIMG\x01\x00\x00"`) is
REJECTED with the magic `RuntimeError`, refuting "accepts any padding bytes":
numpy's `S8` comparison strips trailing NULs only, so non-NUL padding makes
the comparison fail. -/
theorem C9_nonnull_padding_counterexample :
    pySlice c9Bytes 0 8 = [68, 67, 73, 77, 71, 1, 0, 0] ∧
    openBytes c9Bytes = Except.error (PyErr.runtimeError "Invalid DCIMG file") := by
  exact ⟨by rfl, by rfl⟩

/-- C9 (amended): a file whose 8-byte magic field is `"DCIMG"` followed by
three NUL padding bytes passes magic validation (opening never yields the
magic `RuntimeError('Invalid DCIMG file')`), while `"DCIMG"` followed by any
padding with a non-NUL byte is rejected with exactly that error. -/
theorem C9_padding_amended (mm : List Nat) (h72 : 72 ≤ mm.length) :
    (pySlice mm 0 8 = dcimgMagicPadded →
        openBytes mm ≠ Except.error (PyErr.runtimeError "Invalid DCIMG file")) ∧
    ∀ p1 p2 p3 : Nat, pySlice mm 0 8 = [68, 67, 73, 77, 71, p1, p2, p3] →
      ¬(p1 = 0 ∧ p2 = 0 ∧ p3 = 0) →
      openBytes mm = Except.error (PyErr.runtimeError "Invalid DCIMG file") := by
  constructor
  · intro h8
    rw [openBytes_magic_ok_stage mm h72 h8]
    exact parseSessStage_ne_magic _ _ _
  · intro p1 p2 p3 h8 hne
    have h5 : pySlice mm 0 5 = dcimgMagic := by
      have ht : pySlice mm 0 5 = (pySlice mm 0 8).take 5 := by
        simp [pySlice, List.take_take]
      rw [ht, h8]
      rfl
    refine openBytes_magic_bad_stage mm h72 h5 ?_
    rw [h8]
    exact strip_padded p1 p2 p3 hne

/-- C9 witness: the amended theorem applied to the NUL-padded valid file and
to the file with padding byte 1. -/
theorem C9_padding_amended_witness :
    openBytes goodBytes ≠ Except.error (PyErr.runtimeError "Invalid DCIMG file") ∧
    openBytes c9Bytes = Except.error (PyErr.runtimeError "Invalid DCIMG file") :=
  ⟨(C9_padding_amended goodBytes (by decide)).1 (by rfl),
   (C9_padding_amended c9Bytes (by decide)).2 1 0 0 (by rfl) (by decide)⟩

/-- C6: on every successfully opened file, `byte_depth` is 1 (dtype `uint8`)
or 2 (dtype `uint16`); and on a file whose headers parse but whose
`byte_depth` is any other value, opening fails with
`RuntimeError('Invalid byte-depth: ...')` (the spec's `FormatError`). -/
theorem C6_byte_depth_mapping (mm : List Nat) (h72 : 72 ≤ mm.length)
    (h8 : pySlice mm 0 8 = dcimgMagicPadded)
    (hsess : (parseFileHeader (pySlice mm 0 72)).header_size + 80 ≤ mm.length) :
    (∀ h : DCIMGFile, openBytes mm = Except.ok h →
        (h.byte_depth = 1 ∧ h.dtype = DType.uint8) ∨
        (h.byte_depth = 2 ∧ h.dtype = DType.uint16)) ∧
    ∀ bd : Nat, bd ≠ 1 → bd ≠ 2 →
      (parseSessHeader (pySlice mm (parseFileHeader (pySlice mm 0 72)).header_size
          ((parseFileHeader (pySlice mm 0 72)).header_size + 80))).byte_depth = bd →
      openBytes mm = Except.error (PyErr.runtimeError ("Invalid byte-depth: " ++ toString bd)) := by
  constructor
  · intro h hok
    exact openBytes_ok_dtype hok
  · intro bd hb1 hb2 hbd
    rw [openBytes_magic_ok_stage mm h72 h8, parseSessStage]
    have hlen : (pySlice mm (parseFileHeader (pySlice mm 0 72)).header_size
        ((parseFileHeader (pySlice mm 0 72)).header_size + 80)).length = 80 := by
      rw [pySlice_length]; omega
    rw [if_neg (by simp [hlen]), hbd, if_neg hb1, if_neg hb2]

/-- C6 witness: the theorem applied to the valid file (dtype mapping on the
opened handle) and to the concrete file with `byte_depth = 3`. -/
theorem C6_byte_depth_mapping_witness :
    ((goodHandle.byte_depth = 1 ∧ goodHandle.dtype = DType.uint8) ∨
     (goodHandle.byte_depth = 2 ∧ goodHandle.dtype = DType.uint16)) ∧
    openBytes c6Bytes = Except.error (PyErr.runtimeError ("Invalid byte-depth: " ++ toString (3 : Nat))) :=
  ⟨(C6_byte_depth_mapping goodBytes (by decide) (by rfl) (by decide)).1 goodHandle (by rfl),
   (C6_byte_depth_mapping c6Bytes (by decide) (by rfl) (by decide)).2 3 (by decide) (by decide) (by rfl)⟩

/-- C10: the `shape` property is `(nfrms, xsize, ysize)` while the arrays
returned by `layer` have shape `(frames_per_layer, ysize, xsize)`: the two
spatial axes appear in opposite orders, so `shape`'s second and third
components are the transposed per-frame dimensions of a layer view. -/
theorem C10_shape_transposed (h : DCIMGFile) (index fpl : Nat) (a : Arr3)
    (hok : h.layer index fpl none = Except.ok a) :
    h.shape = (h.nfrms, h.xsize, h.ysize) ∧
    a.shape = [fpl, h.ysize, h.xsize] ∧
    h.shape.2.1 = a.shape.getD 2 0 ∧
    h.shape.2.2 = a.shape.getD 1 0 := by
  have hs := layer_ok_shape hok
  refine ⟨rfl, hs, ?_, ?_⟩ <;> simp [DCIMGFile.shape, hs]

/-- C10 witness: the theorem applied to the valid synthetic file, where
`shape = (1, 4, 4)` and the layer view has shape `[1, 4, 4]`. -/
theorem C10_shape_transposed_witness :
    goodHandle.shape = (1, 4, 4) ∧
    ∃ a, goodHandle.layer 0 1 none = Except.ok a ∧ a.shape = [1, 4, 4] ∧
      goodHandle.shape.2.1 = a.shape.getD 2 0 ∧ goodHandle.shape.2.2 = a.shape.getD 1 0 := by
  obtain ⟨a, ha, hsh⟩ := resultShape_some
    (show resultShape (goodHandle.layer 0 1 none) = some [1, 4, 4] from by rfl)
  have hthm := C10_shape_transposed goodHandle 0 1 a ha
  exact ⟨by rfl, a, ha, hsh, hthm.2.2.1, hthm.2.2.2⟩

/-- C1: whenever the pixel block and the footer corner-pixel reads are in
range (and the view is wide enough for the corner overlay, `ysize > 0`,
`xsize ≥ 4`), `layer index fpl` succeeds with a view of shape
`(fpl, ysize, xsize)` in the native element type whose pixel block starts at
byte offset `232 + bytes_per_img * fpl * index`; for each frame `i` the four
elements at `[i, 0, 0..4)` are the native-type values stored at footer offset
`session_footer_offset + 272 + nfrms * (4 + 8) + 4 * byte_depth * (index * fpl + i)`,
and every other element is the corresponding element of the main pixel block
unchanged. -/
theorem C1_layer_corner_restore (h : DCIMGFile) (index fpl : Nat)
    (hpix : 232 + h.bytes_per_img * fpl * index
        + fpl * h.ysize * h.xsize * h.dtype.itemsize ≤ h.mm.length)
    (hfoot : ∀ i, i < fpl →
        h.session_footer_offset + 272 + h.nfrms * (4 + 8) + 4 * h.byte_depth * index * fpl
          + 4 * h.byte_depth * i + 4 * h.dtype.itemsize ≤ h.mm.length)
    (hy : 0 < h.ysize) (hx : 4 ≤ h.xsize) :
    ∃ a, h.layer index fpl none = Except.ok a ∧
      a.shape = [fpl, h.ysize, h.xsize] ∧
      (∀ i x, i < fpl → x < 4 →
        a.data i 0 x = readElem h.mm h.dtype.itemsize
          (h.session_footer_offset + 272 + h.nfrms * (4 + 8)
            + 4 * h.byte_depth * (index * fpl + i) + h.dtype.itemsize * x)) ∧
      (∀ i y x, i < fpl → y < h.ysize → x < h.xsize → ¬(y = 0 ∧ x < 4) →
        a.data i y x = readElem h.mm h.dtype.itemsize
          (232 + h.bytes_per_img * fpl * index
            + h.dtype.itemsize * ((i * h.ysize + y) * h.xsize + x))) := by
  obtain ⟨a2, ha2⟩ := footerLoop_isOk h.mm h.dtype h.byte_depth h.ysize h.xsize
    (h.session_footer_offset + 272 + h.nfrms * (4 + 8) + 4 * h.byte_depth * index * fpl)
    hy hx (List.range fpl)
    { shape := [fpl, h.ysize, h.xsize]
      data := fun i y x =>
        readElem h.mm h.dtype.itemsize
          (232 + h.bytes_per_img * fpl * index
            + h.dtype.itemsize * ((i * h.ysize + y) * h.xsize + x)) }
    (fun i hi => hfoot i (List.mem_range.mp hi))
  obtain ⟨hsh, hdata⟩ :=
    footerLoop_ok h.mm h.dtype h.byte_depth h.ysize h.xsize _ _ _ _ ha2
  refine ⟨a2, ?_, hsh, ?_, ?_⟩
  · rw [DCIMGFile.layer, if_neg (by omega), if_neg (by omega), ha2]
  · intro i x hi hx4
    rw [hdata i 0 x, if_pos ⟨List.mem_range.mpr hi, rfl, hx4⟩]
    congr 1
    ring
  · intro i y x hi hyy hxx hnot
    rw [hdata i y x, if_neg (by rintro ⟨hmem, hy0, hx4⟩; exact hnot ⟨hy0, hx4⟩)]

/-- C1 witness: the theorem applied to the valid synthetic file at
`layer 0 1`: all bounds hypotheses hold by evaluation. -/
theorem C1_layer_corner_restore_witness :
    ∃ a, goodHandle.layer 0 1 none = Except.ok a ∧
      a.shape = [1, goodHandle.ysize, goodHandle.xsize] ∧
      (∀ i x, i < 1 → x < 4 →
        a.data i 0 x = readElem goodHandle.mm goodHandle.dtype.itemsize
          (goodHandle.session_footer_offset + 272 + goodHandle.nfrms * (4 + 8)
            + 4 * goodHandle.byte_depth * (0 * 1 + i) + goodHandle.dtype.itemsize * x)) ∧
      (∀ i y x, i < 1 → y < goodHandle.ysize → x < goodHandle.xsize → ¬(y = 0 ∧ x < 4) →
        a.data i y x = readElem goodHandle.mm goodHandle.dtype.itemsize
          (232 + goodHandle.bytes_per_img * 1 * 0
            + goodHandle.dtype.itemsize * ((i * goodHandle.ysize + y) * goodHandle.xsize + x))) :=
  C1_layer_corner_restore goodHandle 0 1 (by decide) (by decide) (by decide) (by decide)
